import Mathlib

/-!
Verification of the layered configuration resolver in
`internal/config/config.go` (package `config`).

The Go code is embedded shallowly: `LoadConfig` becomes a pure function of
the file-system observation and the environment snapshot; machine `int` is
`Int` with the `ParseInt` bit-size bound made explicit; the Go
`(config{}, err)` returns become a pair `config × Option LoadError`.
-/

namespace MarketFlash

/-- The `config` struct: `DatabaseURL`, `Port`, `Environment`, `APIKey`,
`Debug` (yaml keys `database_url`, `port`, `environment`, `api_key`,
`debug`). -/
structure config where
  DatabaseURL : String
  Port : Int
  Environment : String
  APIKey : String
  Debug : Bool
deriving Repr, DecidableEq

/-- The Go zero value `config{}`, returned alongside every error. -/
def zeroConfig : config :=
  { DatabaseURL := "", Port := 0, Environment := "", APIKey := "", Debug := false }

/-- The seed value built at the top of `LoadConfig`: defaults
`Port: 8080`, `Environment: "development"`, `Debug: false`; the string
fields start at their zero value `""`. -/
def defaultConfig : config :=
  { DatabaseURL := "", Port := 8080, Environment := "development", APIKey := "", Debug := false }

/-- The slice `validEnvironments = []string` of development, staging, production. -/
def validEnvironments : List String := ["development", "staging", "production"]

/-- Result of a successful `yaml.Unmarshal` of the file bytes: which of the
five known keys were present, and their values.  Keys absent from the file
leave the corresponding struct field untouched. -/
structure FileYaml where
  database_url : Option String
  port : Option Int
  environment : Option String
  api_key : Option String
  debug : Option Bool
deriving Repr, DecidableEq

/-- A `FileYaml` with no keys present. -/
def emptyYaml : FileYaml :=
  { database_url := none, port := none, environment := none, api_key := none, debug := none }

/-- The effect of `yaml.Unmarshal(data, &cfg)`: fields present in the file overwrite the
current value, absent fields keep it. -/
def applyYaml (y : FileYaml) (c : config) : config :=
  { DatabaseURL := y.database_url.getD c.DatabaseURL
    Port := y.port.getD c.Port
    Environment := y.environment.getD c.Environment
    APIKey := y.api_key.getD c.APIKey
    Debug := y.debug.getD c.Debug }

instance : DecidableEq (Except String FileYaml) := fun
  | .error a, .error b =>
    if h : a = b then .isTrue (by rw [h])
    else .isFalse (by intro hc; cases hc; exact h rfl)
  | .error _, .ok _ => .isFalse (by intro hc; cases hc)
  | .ok _, .error _ => .isFalse (by intro hc; cases hc)
  | .ok a, .ok b =>
    if h : a = b then .isTrue (by rw [h])
    else .isFalse (by intro hc; cases hc; exact h rfl)

/-- Everything `LoadConfig` observes of the file system at `cfgPath`:
`os.ReadFile` fails with a not-exist error, fails otherwise, returns zero
bytes, or returns non-empty bytes whose `yaml.Unmarshal` outcome is the
given `Except`. -/
inductive FileState where
  | notExist
  | readFail (msg : String)
  | emptyFile
  | content (parsed : Except String FileYaml)
deriving Repr, DecidableEq

/-- The environment snapshot: the five variables `LoadConfig` looks up via
`os.LookupEnv`; `some s` means present with value `s` (possibly `""`). -/
structure Env where
  DATABASE_URL : Option String
  PORT : Option String
  API_KEY : Option String
  ENVIRONMENT : Option String
  DEBUG : Option String
deriving Repr, DecidableEq

/-- The error kinds `LoadConfig` can return: wrapped `ErrReadConfig`,
`ErrParseYAML`, `ErrInvalidPort` (quoting the raw text), `ErrInvalidDebug`
(quoting the raw text), and `ErrValidationFailed` wrapping the joined
validation errors. -/
inductive VErr where
  | missingDatabaseURL
  | invalidPortRange (got : Int)
  | missingAPIKey
  | invalidEnvironment (got : String)
deriving Repr, DecidableEq

inductive LoadError where
  | readConfig (msg : String)
  | parseYAML (msg : String)
  | invalidPort (raw : String)
  | invalidDebug (raw : String)
  | validationFailed (errs : List VErr)
deriving Repr, DecidableEq

/-- Decimal value of a digit list (most significant first). -/
def digitsToNat (cs : List Char) : Nat :=
  cs.foldl (fun a c => a * 10 + (c.toNat - 48)) 0

/-- The function `strconv.ParseInt(s, 10, 32)`: optional sign, then one or more decimal
digits, value within the signed 32-bit range; `none` models a non-nil
error (syntax or range). -/
def parseIntBase10 (s : String) : Option Int :=
  let step : Bool × List Char :=
    match s.data with
    | '+' :: r => (false, r)
    | '-' :: r => (true, r)
    | r => (false, r)
  let ds := step.2
  if ds.isEmpty then none
  else if ds.all Char.isDigit then
    let v : Int := if step.1 then -(digitsToNat ds : Int) else (digitsToNat ds : Int)
    if v < -2147483648 ∨ v > 2147483647 then none else some v
  else none

/-- The function `strconv.ParseBool`: accepts exactly `1,t,T,TRUE,true,True` and
`0,f,F,FALSE,false,False`. -/
def parseBool (s : String) : Option Bool :=
  if s ∈ ["1", "t", "T", "TRUE", "true", "True"] then some true
  else if s ∈ ["0", "f", "F", "FALSE", "false", "False"] then some false
  else none

/-- The method `Validate`: the list of errors `errs` accumulated by the four
unconditional checks, in program order; `[]` models the `nil` return. -/
def Validate (c : config) : List VErr :=
  (if c.DatabaseURL = "" then [VErr.missingDatabaseURL] else []) ++
  (if c.Port < 1 ∨ c.Port > 65535 then [VErr.invalidPortRange c.Port] else []) ++
  (if c.APIKey = "" then [VErr.missingAPIKey] else []) ++
  (if validEnvironments.contains c.Environment then [] else [VErr.invalidEnvironment c.Environment])

/-- The file-layer block of `LoadConfig`: skipped when `cfgPath == ""`;
a not-exist read error is ignored; any other read error, an empty file,
and a parse failure abort; otherwise the parsed fields overwrite `cfg`. -/
def fileLayer (cfgPath : String) (fs : FileState) : Except LoadError config :=
  if cfgPath = "" then .ok defaultConfig
  else
    match fs with
    | .notExist => .ok defaultConfig
    | .readFail msg => .error (.readConfig msg)
    | .emptyFile => .error (.readConfig "config file is empty")
    | .content (.error msg) => .error (.parseYAML msg)
    | .content (.ok y) => .ok (applyYaml y defaultConfig)

/-- The `DATABASE_URL` block: `if dbURL, ok := os.LookupEnv(...); ok`
overwrites verbatim. -/
def applyDbEnv (c : config) : Option String → config
  | none => c
  | some s => { c with DatabaseURL := s }

/-- The `API_KEY` block: overwrites verbatim. -/
def applyApiEnv (c : config) : Option String → config
  | none => c
  | some s => { c with APIKey := s }

/-- The `ENVIRONMENT` block: overwrites verbatim, unvalidated here. -/
def applyEnvEnv (c : config) : Option String → config
  | none => c
  | some s => { c with Environment := s }

/-- The `PORT` block: absent means no change; present text must satisfy
`err == nil && 1 <= port && port <= 65535`, else `ErrInvalidPort: got %q`. -/
def applyPortEnv (c : config) : Option String → Except LoadError config
  | none => .ok c
  | some ps =>
    match parseIntBase10 ps with
    | none => .error (.invalidPort ps)
    | some p =>
      if p < 1 ∨ p > 65535 then .error (.invalidPort ps)
      else .ok { c with Port := p }

/-- The `DEBUG` block: absent means no change; present text must parse via
`strconv.ParseBool`, else `ErrInvalidDebug: got %q`. -/
def applyDebugEnv (c : config) : Option String → Except LoadError config
  | none => .ok c
  | some ds =>
    match parseBool ds with
    | none => .error (.invalidDebug ds)
    | some b => .ok { c with Debug := b }

/-- The five `os.LookupEnv` blocks of `LoadConfig`, in program order:
`DATABASE_URL` (verbatim), `PORT` (checked), `API_KEY` (verbatim),
`ENVIRONMENT` (verbatim), `DEBUG` (checked). -/
def envLayer (c0 : config) (env : Env) : Except LoadError config :=
  match applyPortEnv (applyDbEnv c0 env.DATABASE_URL) env.PORT with
  | .error e => .error e
  | .ok c2 => applyDebugEnv (applyEnvEnv (applyApiEnv c2 env.API_KEY) env.ENVIRONMENT) env.DEBUG

/-- The fully-merged value just before validation. -/
def merged (cfgPath : String) (fs : FileState) (env : Env) : Except LoadError config :=
  match fileLayer cfgPath fs with
  | .error e => .error e
  | .ok c1 => envLayer c1 env

/-- The function `LoadConfig`: the Go `(config, error)` pair; every error return in the
source is literally `return config{}, ...`. -/
def LoadConfig (cfgPath : String) (fs : FileState) (env : Env) : config × Option LoadError :=
  match merged cfgPath fs env with
  | .error e => (zeroConfig, some e)
  | .ok c =>
    if Validate c = [] then (c, none)
    else (zeroConfig, some (.validationFailed (Validate c)))

/-- The file layer's field contribution, when the file layer contributes
one: no path or a missing file contribute no keys, a successfully parsed
file contributes its keys, and the failing cases contribute nothing. -/
def fileFields (cfgPath : String) (fs : FileState) : Option FileYaml :=
  if cfgPath = "" then some emptyYaml
  else
    match fs with
    | .notExist => some emptyYaml
    | .content (.ok y) => some y
    | _ => none

/-! ## Helper lemmas -/

theorem Validate_eq_nil_iff (c : config) :
    Validate c = [] ↔
      (c.DatabaseURL ≠ "" ∧ 1 ≤ c.Port ∧ c.Port ≤ 65535 ∧ c.APIKey ≠ "" ∧
        c.Environment ∈ validEnvironments) := by
  unfold Validate
  split_ifs with h1 h2 h3 h4 <;> simp_all [List.elem_iff] <;> omega

theorem mem_Validate_db (c : config) :
    VErr.missingDatabaseURL ∈ Validate c ↔ c.DatabaseURL = "" := by
  unfold Validate
  split_ifs <;> simp_all

theorem mem_Validate_port (c : config) :
    (∃ p, VErr.invalidPortRange p ∈ Validate c) ↔ (c.Port < 1 ∨ c.Port > 65535) := by
  unfold Validate
  split_ifs <;> simp_all

theorem mem_Validate_port_val (c : config) (p : Int) :
    VErr.invalidPortRange p ∈ Validate c → p = c.Port := by
  unfold Validate
  split_ifs <;> simp_all

theorem mem_Validate_api (c : config) :
    VErr.missingAPIKey ∈ Validate c ↔ c.APIKey = "" := by
  unfold Validate
  split_ifs <;> simp_all

theorem mem_Validate_env (c : config) :
    (∃ s, VErr.invalidEnvironment s ∈ Validate c) ↔ ¬ c.Environment ∈ validEnvironments := by
  unfold Validate
  split_ifs <;> simp_all [List.elem_iff]

theorem fileFields_fileLayer (cfgPath : String) (fs : FileState) (y : FileYaml)
    (h : fileFields cfgPath fs = some y) :
    fileLayer cfgPath fs = .ok (applyYaml y defaultConfig) := by
  unfold fileFields at h
  unfold fileLayer
  by_cases hp : cfgPath = ""
  · rw [if_pos hp] at h ⊢
    cases h
    rfl
  · rw [if_neg hp] at h ⊢
    cases fs with
    | notExist => cases h; rfl
    | readFail m => cases h
    | emptyFile => cases h
    | content r =>
      cases r with
      | error m => cases h
      | ok y2 => cases h; rfl

theorem fileLayer_error_shape (cfgPath : String) (fs : FileState) (e : LoadError)
    (h : fileLayer cfgPath fs = .error e) :
    (∃ m, e = .readConfig m) ∨ (∃ m, e = .parseYAML m) := by
  unfold fileLayer at h
  by_cases hp : cfgPath = ""
  · rw [if_pos hp] at h; cases h
  · rw [if_neg hp] at h
    cases fs with
    | notExist => cases h
    | readFail m => cases h; exact .inl ⟨m, rfl⟩
    | emptyFile => cases h; exact .inl ⟨_, rfl⟩
    | content r =>
      cases r with
      | error m => cases h; exact .inr ⟨m, rfl⟩
      | ok y => cases h

theorem applyPortEnv_ok (c c' : config) (o : Option String)
    (h : applyPortEnv c o = .ok c') :
    (o = none ∧ c' = c) ∨
      (∃ ps p, o = some ps ∧ parseIntBase10 ps = some p ∧ 1 ≤ p ∧ p ≤ 65535 ∧
        c' = { c with Port := p }) := by
  cases o with
  | none => cases h; exact .inl ⟨rfl, rfl⟩
  | some ps =>
    simp only [applyPortEnv] at h
    cases hp : parseIntBase10 ps with
    | none => simp [hp] at h
    | some p =>
      simp only [hp] at h
      split_ifs at h with hr
      cases h
      exact .inr ⟨ps, p, rfl, hp, by omega, by omega, rfl⟩

theorem applyDebugEnv_ok (c c' : config) (o : Option String)
    (h : applyDebugEnv c o = .ok c') :
    (o = none ∧ c' = c) ∨
      (∃ ds b, o = some ds ∧ parseBool ds = some b ∧ c' = { c with Debug := b }) := by
  cases o with
  | none => cases h; exact .inl ⟨rfl, rfl⟩
  | some ds =>
    simp only [applyDebugEnv] at h
    cases hb : parseBool ds with
    | none => simp [hb] at h
    | some b =>
      simp only [hb] at h
      cases h
      exact .inr ⟨ds, b, rfl, hb, rfl⟩

theorem envLayer_ok_fields (c0 c' : config) (env : Env)
    (h : envLayer c0 env = .ok c') :
    c'.DatabaseURL = env.DATABASE_URL.getD c0.DatabaseURL ∧
    (∀ ps, env.PORT = some ps →
      parseIntBase10 ps = some c'.Port ∧ 1 ≤ c'.Port ∧ c'.Port ≤ 65535) ∧
    (env.PORT = none → c'.Port = c0.Port) ∧
    c'.APIKey = env.API_KEY.getD c0.APIKey ∧
    c'.Environment = env.ENVIRONMENT.getD c0.Environment ∧
    (∀ ds, env.DEBUG = some ds → parseBool ds = some c'.Debug) ∧
    (env.DEBUG = none → c'.Debug = c0.Debug) := by
  unfold envLayer at h
  cases hpe : applyPortEnv (applyDbEnv c0 env.DATABASE_URL) env.PORT with
  | error e => rw [hpe] at h; cases h
  | ok c2 =>
    rw [hpe] at h
    simp only [] at h
    have hport := applyPortEnv_ok _ _ _ hpe
    have hdbg := applyDebugEnv_ok _ _ _ h
    obtain ⟨hP0, rfl⟩ | ⟨ps, p, hps, hpp, hp1, hp2, rfl⟩ := hport <;>
      obtain ⟨hD0, rfl⟩ | ⟨ds, b, hds, hb, rfl⟩ := hdbg <;>
        cases hdu : env.DATABASE_URL <;> cases hak : env.API_KEY <;>
          cases hev : env.ENVIRONMENT <;>
            simp_all [applyDbEnv, applyApiEnv, applyEnvEnv]

theorem mem_Validate_env_self (c : config) (h : ¬ c.Environment ∈ validEnvironments) :
    VErr.invalidEnvironment c.Environment ∈ Validate c := by
  unfold Validate
  split_ifs <;> simp_all [List.elem_iff]

theorem Validate_sublist (c : config) :
    List.Sublist (Validate c)
      [VErr.missingDatabaseURL, VErr.invalidPortRange c.Port, VErr.missingAPIKey,
        VErr.invalidEnvironment c.Environment] := by
  unfold Validate
  have h1 : (if c.DatabaseURL = "" then [VErr.missingDatabaseURL] else []).Sublist
      [VErr.missingDatabaseURL] := by
    split <;> simp
  have h2 : (if c.Port < 1 ∨ c.Port > 65535 then [VErr.invalidPortRange c.Port] else []).Sublist
      [VErr.invalidPortRange c.Port] := by
    split <;> simp
  have h3 : (if c.APIKey = "" then [VErr.missingAPIKey] else []).Sublist
      [VErr.missingAPIKey] := by
    split <;> simp
  have h4 : (if validEnvironments.contains c.Environment then []
      else [VErr.invalidEnvironment c.Environment]).Sublist
      [VErr.invalidEnvironment c.Environment] := by
    split <;> simp
  exact ((h1.append h2).append h3).append h4

theorem applyPortEnv_error (c : config) (o : Option String) (e : LoadError)
    (h : applyPortEnv c o = .error e) :
    ∃ ps, o = some ps ∧ e = .invalidPort ps := by
  cases o with
  | none => cases h
  | some ps =>
    simp only [applyPortEnv] at h
    cases hp : parseIntBase10 ps with
    | none =>
      rw [hp] at h
      have h2 : (Except.error (LoadError.invalidPort ps) : Except LoadError config) =
        .error e := h
      cases h2
      exact ⟨ps, rfl, rfl⟩
    | some p =>
      rw [hp] at h
      have h2 : (if p < 1 ∨ p > 65535 then (Except.error (LoadError.invalidPort ps))
          else Except.ok { c with Port := p }) = .error e := h
      by_cases hr : p < 1 ∨ p > 65535
      · rw [if_pos hr] at h2
        cases h2
        exact ⟨ps, rfl, rfl⟩
      · rw [if_neg hr] at h2
        cases h2

theorem applyPortEnv_good (c : config) (ps : String) (p : Int)
    (hpp : parseIntBase10 ps = some p) (h1 : 1 ≤ p) (h2 : p ≤ 65535) :
    applyPortEnv c (some ps) = .ok { c with Port := p } := by
  simp only [applyPortEnv]
  rw [hpp]
  exact if_neg (by omega)

theorem applyDebugEnv_error (c : config) (o : Option String) (e : LoadError)
    (h : applyDebugEnv c o = .error e) :
    ∃ ds, o = some ds ∧ e = .invalidDebug ds := by
  cases o with
  | none => cases h
  | some ds =>
    simp only [applyDebugEnv] at h
    cases hb : parseBool ds with
    | none =>
      rw [hb] at h
      have h2 : (Except.error (LoadError.invalidDebug ds) : Except LoadError config) =
        .error e := h
      cases h2
      exact ⟨ds, rfl, rfl⟩
    | some b =>
      rw [hb] at h
      have h2 : (Except.ok { c with Debug := b } : Except LoadError config) = .error e := h
      cases h2

theorem envLayer_error_shape (c0 : config) (env : Env) (e : LoadError)
    (h : envLayer c0 env = .error e) :
    (∃ ps, e = .invalidPort ps) ∨ (∃ ds, e = .invalidDebug ds) := by
  unfold envLayer at h
  cases hpe : applyPortEnv (applyDbEnv c0 env.DATABASE_URL) env.PORT with
  | error e2 =>
    rw [hpe] at h
    have h2 : (Except.error e2 : Except LoadError config) = .error e := h
    cases h2
    obtain ⟨ps, -, he⟩ := applyPortEnv_error _ _ _ hpe
    exact .inl ⟨ps, he⟩
  | ok c2 =>
    rw [hpe] at h
    have h2 : applyDebugEnv (applyEnvEnv (applyApiEnv c2 env.API_KEY) env.ENVIRONMENT)
        env.DEBUG = .error e := h
    obtain ⟨ds, -, he⟩ := applyDebugEnv_error _ _ _ h2
    exact .inr ⟨ds, he⟩

theorem envLayer_bad_port (c0 : config) (env : Env) (ps : String)
    (hps : env.PORT = some ps)
    (hbad : ∀ p, parseIntBase10 ps = some p → p < 1 ∨ p > 65535) :
    envLayer c0 env = .error (.invalidPort ps) := by
  unfold envLayer
  rw [hps]
  have hape : applyPortEnv (applyDbEnv c0 env.DATABASE_URL) (some ps) =
      .error (.invalidPort ps) := by
    simp only [applyPortEnv]
    cases hp : parseIntBase10 ps with
    | none => rfl
    | some p => exact if_pos (hbad p hp)
  rw [hape]

theorem envLayer_error_good_port (c0 : config) (env : Env) (e : LoadError)
    (ps : String) (p : Int) (hps : env.PORT = some ps)
    (hpp : parseIntBase10 ps = some p) (h1 : 1 ≤ p) (h2 : p ≤ 65535)
    (h : envLayer c0 env = .error e) :
    ∃ ds, e = .invalidDebug ds := by
  unfold envLayer at h
  rw [hps, applyPortEnv_good _ ps p hpp h1 h2] at h
  have h3 : applyDebugEnv
      (applyEnvEnv (applyApiEnv { applyDbEnv c0 env.DATABASE_URL with Port := p }
        env.API_KEY) env.ENVIRONMENT) env.DEBUG = .error e := h
  obtain ⟨ds, -, he⟩ := applyDebugEnv_error _ _ _ h3
  exact ⟨ds, he⟩

theorem merged_ok_source (path : String) (fs : FileState) (env : Env) (c : config)
    (h : merged path fs env = .ok c) :
    ∃ c1, fileLayer path fs = .ok c1 ∧ envLayer c1 env = .ok c := by
  unfold merged at h
  cases hfl : fileLayer path fs with
  | error e2 =>
    rw [hfl] at h
    have h2 : (Except.error e2 : Except LoadError config) = .ok c := h
    cases h2
  | ok c1 =>
    rw [hfl] at h
    exact ⟨c1, rfl, h⟩

theorem merged_error_source (path : String) (fs : FileState) (env : Env) (e : LoadError)
    (h : merged path fs env = .error e) :
    fileLayer path fs = .error e ∨
      (∃ c1, fileLayer path fs = .ok c1 ∧ envLayer c1 env = .error e) := by
  unfold merged at h
  cases hfl : fileLayer path fs with
  | error e2 =>
    rw [hfl] at h
    have h2 : (Except.error e2 : Except LoadError config) = .error e := h
    cases h2
    exact .inl rfl
  | ok c1 =>
    rw [hfl] at h
    exact .inr ⟨c1, rfl, h⟩

theorem LoadConfig_error_source (path : String) (fs : FileState) (env : Env) (e : LoadError)
    (h : (LoadConfig path fs env).2 = some e) :
    merged path fs env = .error e ∨
      (∃ c, merged path fs env = .ok c ∧ Validate c ≠ [] ∧
        e = .validationFailed (Validate c)) := by
  unfold LoadConfig at h
  cases hm : merged path fs env with
  | error e2 =>
    rw [hm] at h
    have h2 : (some e2 : Option LoadError) = some e := h
    cases h2
    exact .inl rfl
  | ok c =>
    rw [hm] at h
    by_cases hv : Validate c = []
    · have h2 : ((if Validate c = [] then (c, none)
          else (zeroConfig, some (.validationFailed (Validate c)))) :
            config × Option LoadError).2 = some e := h
      rw [if_pos hv] at h2
      simp at h2
    · have h2 : ((if Validate c = [] then (c, none)
          else (zeroConfig, some (.validationFailed (Validate c)))) :
            config × Option LoadError).2 = some e := h
      rw [if_neg hv] at h2
      have h3 : some (LoadError.validationFailed (Validate c)) = some e := h2
      cases h3
      exact .inr ⟨c, rfl, hv, rfl⟩

theorem LoadConfig_ok_cases (path : String) (fs : FileState) (env : Env) (c : config)
    (h : LoadConfig path fs env = (c, none)) :
    merged path fs env = .ok c ∧ Validate c = [] := by
  unfold LoadConfig at h
  cases hm : merged path fs env with
  | error e => rw [hm] at h; simp at h
  | ok c2 =>
    rw [hm] at h
    by_cases hv : Validate c2 = []
    · simp [hv] at h
      subst h
      exact ⟨rfl, hv⟩
    · simp [hv] at h

theorem LoadConfig_shape (path : String) (fs : FileState) (env : Env) :
    (∃ c, LoadConfig path fs env = (c, none)) ∨
      (∃ e, LoadConfig path fs env = (zeroConfig, some e)) := by
  unfold LoadConfig
  cases merged path fs env with
  | error e => exact .inr ⟨e, rfl⟩
  | ok c =>
    by_cases hv : Validate c = []
    · exact .inl ⟨c, by simp [hv]⟩
    · exact .inr ⟨LoadError.validationFailed (Validate c), by simp [hv]⟩

theorem LoadConfig_validation_fails (path : String) (fs : FileState) (env : Env) (c : config)
    (hm : merged path fs env = .ok c) (hv : Validate c ≠ []) :
    LoadConfig path fs env = (zeroConfig, some (.validationFailed (Validate c))) := by
  unfold LoadConfig
  rw [hm]
  simp [hv]

/-! ## Claim theorems -/

/-- Claim C1: if `LoadConfig` returns a configuration without error, that
configuration satisfies all four validity invariants: non-empty database
connection string, port in `[1, 65535]`, environment among development,
staging, production, and non-empty API key. -/
theorem C1_loadConfig_ok_invariants (path : String) (fs : FileState) (env : Env) (c : config)
    (h : LoadConfig path fs env = (c, none)) :
    c.DatabaseURL ≠ "" ∧ 1 ≤ c.Port ∧ c.Port ≤ 65535 ∧
      (c.Environment = "development" ∨ c.Environment = "staging" ∨
        c.Environment = "production") ∧
      c.APIKey ≠ "" := by
  obtain ⟨-, hv⟩ := LoadConfig_ok_cases path fs env c h
  obtain ⟨h1, h2, h3, h4, h5⟩ := (Validate_eq_nil_iff c).mp hv
  refine ⟨h1, h2, h3, ?_, h4⟩
  simpa [validEnvironments] using h5

/-- Claim C1 witness: a concrete successful resolution. -/
theorem C1_loadConfig_ok_invariants_witness :
    (LoadConfig "" FileState.notExist
        ⟨some "postgres://h/db", none, some "k", none, none⟩).1.DatabaseURL ≠ "" ∧
      1 ≤ (LoadConfig "" FileState.notExist
        ⟨some "postgres://h/db", none, some "k", none, none⟩).1.Port ∧
      (LoadConfig "" FileState.notExist
        ⟨some "postgres://h/db", none, some "k", none, none⟩).1.Port ≤ 65535 ∧
      ((LoadConfig "" FileState.notExist
          ⟨some "postgres://h/db", none, some "k", none, none⟩).1.Environment = "development" ∨
        (LoadConfig "" FileState.notExist
          ⟨some "postgres://h/db", none, some "k", none, none⟩).1.Environment = "staging" ∨
        (LoadConfig "" FileState.notExist
          ⟨some "postgres://h/db", none, some "k", none, none⟩).1.Environment = "production") ∧
      (LoadConfig "" FileState.notExist
        ⟨some "postgres://h/db", none, some "k", none, none⟩).1.APIKey ≠ "" :=
  C1_loadConfig_ok_invariants "" FileState.notExist
    ⟨some "postgres://h/db", none, some "k", none, none⟩ _ (by decide)

/-- Claim C6: a zero-length file at a given path makes `LoadConfig` fail
with the `ReadConfigError` message "config file is empty" — not a parse
error and not a silently ignored file; environment overrides and
validation are never reached (the result does not depend on `env`). -/
theorem C6_empty_file_read_error (path : String) (env : Env) (h : path ≠ "") :
    LoadConfig path .emptyFile env =
      (zeroConfig, some (.readConfig "config file is empty")) := by
  unfold LoadConfig merged fileLayer
  rw [if_neg h]

/-- Claim C6 witness: a concrete empty file. -/
theorem C6_empty_file_read_error_witness :
    LoadConfig "config.yaml" .emptyFile ⟨none, none, none, none, none⟩ =
      (zeroConfig, some (.readConfig "config file is empty")) :=
  C6_empty_file_read_error "config.yaml" ⟨none, none, none, none, none⟩ (by decide)

/-- Claim C9: whenever `LoadConfig` returns an error, the configuration
value returned alongside it is the zero configuration, never a partly
merged one. -/
theorem C9_error_returns_zero_config (path : String) (fs : FileState) (env : Env)
    (e : LoadError) (h : (LoadConfig path fs env).2 = some e) :
    (LoadConfig path fs env).1 = zeroConfig := by
  obtain ⟨c, hc⟩ | ⟨e2, he⟩ := LoadConfig_shape path fs env
  · rw [hc] at h
    simp at h
  · rw [he]

/-- Claim C9 witness: a concrete failing resolution. -/
theorem C9_error_returns_zero_config_witness :
    (LoadConfig "config.yaml" .emptyFile ⟨none, none, none, none, none⟩).1 = zeroConfig :=
  C9_error_returns_zero_config "config.yaml" .emptyFile ⟨none, none, none, none, none⟩
    (.readConfig "config file is empty") (by decide)

/-- Claim C2: the resolved value obeys the precedence defaults < file <
environment for every field: a field set in the environment wins (its
parsed value for `PORT`/`DEBUG`, the verbatim text otherwise); a field set
only in the file takes the file value; a field set nowhere takes the
built-in default (port 8080, environment "development", debug false,
connection string and API key empty). -/
theorem C2_layering (path : String) (fs : FileState) (env : Env) (y : FileYaml) (c : config)
    (hy : fileFields path fs = some y)
    (h : LoadConfig path fs env = (c, none)) :
    c.DatabaseURL = env.DATABASE_URL.getD (y.database_url.getD "") ∧
    (∀ ps, env.PORT = some ps → parseIntBase10 ps = some c.Port) ∧
    (env.PORT = none → c.Port = y.port.getD 8080) ∧
    c.APIKey = env.API_KEY.getD (y.api_key.getD "") ∧
    c.Environment = env.ENVIRONMENT.getD (y.environment.getD "development") ∧
    (∀ ds, env.DEBUG = some ds → parseBool ds = some c.Debug) ∧
    (env.DEBUG = none → c.Debug = y.debug.getD false) := by
  obtain ⟨hm, -⟩ := LoadConfig_ok_cases path fs env c h
  obtain ⟨c1, hfl', henv⟩ := merged_ok_source path fs env c hm
  have hfl := fileFields_fileLayer path fs y hy
  rw [hfl] at hfl'
  cases hfl'
  obtain ⟨f1, f2, f3, f4, f5, f6, f7⟩ := envLayer_ok_fields _ c env henv
  exact ⟨f1, fun ps hps => (f2 ps hps).1, f3, f4, f5, f6, f7⟩

/-- Claim C2 witness: file sets all five keys, environment overrides the
connection string and the port. -/
theorem C2_layering_witness :
    (LoadConfig "app.yaml"
        (.content (.ok ⟨some "postgres://file/db", some 8080, some "production", some "k",
          some false⟩))
        ⟨some "postgres://env/db", some "9090", none, none, none⟩).1.DatabaseURL =
      (some "postgres://env/db").getD ((some "postgres://file/db").getD "") ∧
    (∀ ps, (some "9090" : Option String) = some ps →
      parseIntBase10 ps = some (LoadConfig "app.yaml"
        (.content (.ok ⟨some "postgres://file/db", some 8080, some "production", some "k",
          some false⟩))
        ⟨some "postgres://env/db", some "9090", none, none, none⟩).1.Port) ∧
    ((some "9090" : Option String) = none →
      (LoadConfig "app.yaml"
        (.content (.ok ⟨some "postgres://file/db", some 8080, some "production", some "k",
          some false⟩))
        ⟨some "postgres://env/db", some "9090", none, none, none⟩).1.Port =
        (some (8080 : Int)).getD 8080) ∧
    (LoadConfig "app.yaml"
        (.content (.ok ⟨some "postgres://file/db", some 8080, some "production", some "k",
          some false⟩))
        ⟨some "postgres://env/db", some "9090", none, none, none⟩).1.APIKey =
      (none : Option String).getD ((some "k").getD "") ∧
    (LoadConfig "app.yaml"
        (.content (.ok ⟨some "postgres://file/db", some 8080, some "production", some "k",
          some false⟩))
        ⟨some "postgres://env/db", some "9090", none, none, none⟩).1.Environment =
      (none : Option String).getD ((some "production").getD "development") ∧
    (∀ ds, (none : Option String) = some ds →
      parseBool ds = some (LoadConfig "app.yaml"
        (.content (.ok ⟨some "postgres://file/db", some 8080, some "production", some "k",
          some false⟩))
        ⟨some "postgres://env/db", some "9090", none, none, none⟩).1.Debug) ∧
    ((none : Option String) = none →
      (LoadConfig "app.yaml"
        (.content (.ok ⟨some "postgres://file/db", some 8080, some "production", some "k",
          some false⟩))
        ⟨some "postgres://env/db", some "9090", none, none, none⟩).1.Debug =
        (some false).getD false) :=
  C2_layering "app.yaml"
    (.content (.ok ⟨some "postgres://file/db", some 8080, some "production", some "k",
      some false⟩))
    ⟨some "postgres://env/db", some "9090", none, none, none⟩
    ⟨some "postgres://file/db", some 8080, some "production", some "k", some false⟩
    _ (by decide) (by decide)

/-- Claim C3: `Validate` checks all four field rules unconditionally with
no short-circuit (one distinct error per failing check, membership exactly
when the check fails), its output preserves the fixed check order
(connection string, port, API key, environment), it returns success
exactly when zero checks fail, and the all-four-failing example yields all
four underlying errors in order. -/
theorem C3_validate_all_checks (c : config) :
    (VErr.missingDatabaseURL ∈ Validate c ↔ c.DatabaseURL = "") ∧
    ((∃ p, VErr.invalidPortRange p ∈ Validate c) ↔ (c.Port < 1 ∨ c.Port > 65535)) ∧
    (VErr.missingAPIKey ∈ Validate c ↔ c.APIKey = "") ∧
    ((∃ s, VErr.invalidEnvironment s ∈ Validate c) ↔ ¬ c.Environment ∈ validEnvironments) ∧
    List.Sublist (Validate c)
      [VErr.missingDatabaseURL, VErr.invalidPortRange c.Port, VErr.missingAPIKey,
        VErr.invalidEnvironment c.Environment] ∧
    (Validate c = [] ↔
      (c.DatabaseURL ≠ "" ∧ 1 ≤ c.Port ∧ c.Port ≤ 65535 ∧ c.APIKey ≠ "" ∧
        c.Environment ∈ validEnvironments)) ∧
    Validate
      { DatabaseURL := "", Port := 0, Environment := "bogus", APIKey := "",
        Debug := false } =
      [VErr.missingDatabaseURL, VErr.invalidPortRange 0, VErr.missingAPIKey,
        VErr.invalidEnvironment "bogus"] :=
  ⟨mem_Validate_db c, mem_Validate_port c, mem_Validate_api c, mem_Validate_env c,
    Validate_sublist c, Validate_eq_nil_iff c, by decide⟩

/-- Claim C4: when validation of the fully-merged configuration fails,
`LoadConfig` fails with `ValidationFailedError` wrapping the aggregated
validation error, and each underlying field failure remains independently
identifiable in it (membership in the wrapped list is equivalent to the
corresponding field check failing). -/
theorem C4_validation_failed_wraps (path : String) (fs : FileState) (env : Env) (c : config)
    (hm : merged path fs env = .ok c) (hv : Validate c ≠ []) :
    LoadConfig path fs env = (zeroConfig, some (.validationFailed (Validate c))) ∧
    (VErr.missingDatabaseURL ∈ Validate c ↔ c.DatabaseURL = "") ∧
    ((∃ p, VErr.invalidPortRange p ∈ Validate c) ↔ (c.Port < 1 ∨ c.Port > 65535)) ∧
    (VErr.missingAPIKey ∈ Validate c ↔ c.APIKey = "") ∧
    ((∃ s, VErr.invalidEnvironment s ∈ Validate c) ↔ ¬ c.Environment ∈ validEnvironments) :=
  ⟨LoadConfig_validation_fails path fs env c hm hv, mem_Validate_db c, mem_Validate_port c,
    mem_Validate_api c, mem_Validate_env c⟩

/-- Claim C4 witness: defaults only (no file, no environment), where
validation fails for the missing connection string and API key. -/
theorem C4_validation_failed_wraps_witness :
    (LoadConfig "" FileState.notExist ⟨none, none, none, none, none⟩ =
      (zeroConfig, some (.validationFailed (Validate defaultConfig)))) ∧
    (VErr.missingDatabaseURL ∈ Validate defaultConfig ↔ defaultConfig.DatabaseURL = "") ∧
    ((∃ p, VErr.invalidPortRange p ∈ Validate defaultConfig) ↔
      (defaultConfig.Port < 1 ∨ defaultConfig.Port > 65535)) ∧
    (VErr.missingAPIKey ∈ Validate defaultConfig ↔ defaultConfig.APIKey = "") ∧
    ((∃ s, VErr.invalidEnvironment s ∈ Validate defaultConfig) ↔
      ¬ defaultConfig.Environment ∈ validEnvironments) :=
  C4_validation_failed_wraps "" FileState.notExist ⟨none, none, none, none, none⟩
    defaultConfig rfl (by decide)

/-- Claim C5: a present `PORT` environment variable whose text does not
parse as a base-10 integer in `[1, 65535]` makes `LoadConfig` fail with
`InvalidPortError` quoting the raw text, whatever the file or default port
was; a good `PORT` text never yields `InvalidPortError` and its parsed
value is the merged port; the boundary texts "1" and "65535" are accepted
and override while "0" and "65536" are rejected. -/
theorem C5_port_env_override :
    (∀ path fs env ps c1, fileLayer path fs = Except.ok c1 → env.PORT = some ps →
      (∀ p, parseIntBase10 ps = some p → p < 1 ∨ p > 65535) →
      LoadConfig path fs env = (zeroConfig, some (.invalidPort ps))) ∧
    (∀ path fs env ps p, env.PORT = some ps → parseIntBase10 ps = some p →
      1 ≤ p → p ≤ 65535 →
      (∀ s, (LoadConfig path fs env).2 ≠ some (.invalidPort s)) ∧
      (∀ c, merged path fs env = Except.ok c → c.Port = p)) ∧
    LoadConfig "" .notExist ⟨some "db", some "1", some "k", none, none⟩ =
      ({ DatabaseURL := "db", Port := 1, Environment := "development", APIKey := "k",
         Debug := false }, none) ∧
    LoadConfig "" .notExist ⟨some "db", some "65535", some "k", none, none⟩ =
      ({ DatabaseURL := "db", Port := 65535, Environment := "development", APIKey := "k",
         Debug := false }, none) ∧
    LoadConfig "" .notExist ⟨some "db", some "0", some "k", none, none⟩ =
      (zeroConfig, some (.invalidPort "0")) ∧
    LoadConfig "" .notExist ⟨some "db", some "65536", some "k", none, none⟩ =
      (zeroConfig, some (.invalidPort "65536")) := by
  refine ⟨?_, ?_, by decide, by decide, by decide, by decide⟩
  · intro path fs env ps c1 hfl hps hbad
    have hm : merged path fs env = envLayer c1 env := by
      unfold merged
      rw [hfl]
    have he := envLayer_bad_port c1 env ps hps hbad
    unfold LoadConfig
    rw [hm, he]
  · intro path fs env ps p hps hpp h1 h2
    constructor
    · intro s hcontra
      obtain hme | ⟨c, -, -, hval⟩ := LoadConfig_error_source path fs env _ hcontra
      · obtain hfe | ⟨c1, -, hee⟩ := merged_error_source path fs env _ hme
        · obtain ⟨m, hm⟩ | ⟨m, hm⟩ := fileLayer_error_shape path fs _ hfe <;> cases hm
        · obtain ⟨ds, hd⟩ := envLayer_error_good_port c1 env _ ps p hps hpp h1 h2 hee
          cases hd
      · cases hval
    · intro c hm
      obtain ⟨c1, -, henv⟩ := merged_ok_source path fs env c hm
      have hfields := (envLayer_ok_fields c1 c env henv).2.1 ps hps
      have := hfields.1
      rw [hpp] at this
      cases this
      rfl

/-- Claim C5 witness: the first conjunct applied to the malformed
environment text "0". -/
theorem C5_port_env_override_witness :
    LoadConfig "" FileState.notExist ⟨none, some "0", none, none, none⟩ =
      (zeroConfig, some (.invalidPort "0")) :=
  C5_port_env_override.1 "" FileState.notExist ⟨none, some "0", none, none, none⟩ "0"
    defaultConfig rfl rfl
    (by
      intro p h
      have h0 : parseIntBase10 "0" = some 0 := by decide
      rw [h0] at h
      cases h
      exact .inl (by decide))

/-- Claim C7: a missing file is not an error: with no path, or with a path
that does not exist, the file layer contributes nothing and resolution
behaves exactly as with no file; with only `DATABASE_URL` and `API_KEY`
set (non-empty), resolution succeeds with port 8080, environment
"development", debug false, and the two supplied values. -/
theorem C7_missing_file_not_error (path : String) (fs : FileState) (env : Env)
    (db k : String) (h : path = "" ∨ fs = FileState.notExist) :
    fileLayer path fs = .ok defaultConfig ∧
    LoadConfig path fs env = LoadConfig "" FileState.notExist env ∧
    (env.DATABASE_URL = some db → db ≠ "" → env.API_KEY = some k → k ≠ "" →
      env.PORT = none → env.ENVIRONMENT = none → env.DEBUG = none →
      LoadConfig path fs env =
        ({ DatabaseURL := db, Port := 8080, Environment := "development", APIKey := k,
           Debug := false }, none)) := by
  have hfl : fileLayer path fs = .ok defaultConfig := by
    unfold fileLayer
    rcases h with rfl | rfl
    · rw [if_pos rfl]
    · by_cases hp : path = ""
      · rw [if_pos hp]
      · rw [if_neg hp]
  have hm : merged path fs env = envLayer defaultConfig env := by
    unfold merged
    rw [hfl]
  refine ⟨hfl, ?_, ?_⟩
  · have hm2 : merged "" FileState.notExist env = envLayer defaultConfig env := by
      unfold merged
      rw [show fileLayer "" FileState.notExist = .ok defaultConfig from rfl]
    unfold LoadConfig
    rw [hm, hm2]
  · intro hdb hdbne hak hakne hP hE hD
    have he : envLayer defaultConfig env =
        .ok { DatabaseURL := db, Port := 8080, Environment := "development", APIKey := k,
              Debug := false } := by
      unfold envLayer
      rw [hdb, hak, hP, hE, hD]
      rfl
    have hv : Validate
        { DatabaseURL := db, Port := 8080, Environment := "development", APIKey := k,
          Debug := false } = [] := by
      rw [Validate_eq_nil_iff]
      exact ⟨hdbne, by norm_num, by norm_num, hakne, by simp [validEnvironments]⟩
    unfold LoadConfig
    rw [hm, he]
    exact if_pos hv

/-- Claim C7 witness: no file path, environment supplying only the
connection string and the API key. -/
theorem C7_missing_file_not_error_witness :
    LoadConfig "" FileState.notExist ⟨some "postgres://h/db", none, some "k", none, none⟩ =
      ({ DatabaseURL := "postgres://h/db", Port := 8080, Environment := "development",
         APIKey := "k", Debug := false }, none) :=
  (C7_missing_file_not_error "" FileState.notExist
      ⟨some "postgres://h/db", none, some "k", none, none⟩ "postgres://h/db" "k"
      (Or.inl rfl)).2.2
    rfl (by decide) rfl (by decide) rfl rfl rfl

/-- Claim C8: a present `ENVIRONMENT` variable overrides the environment
name verbatim and the override step never fails because of it (the env
layer can only fail with the port or debug error kinds); a value outside
the allowed set makes `LoadConfig` fail during final validation with
`ValidationFailedError` containing `ErrInvalidEnvironment`. -/
theorem C8_environment_override_deferred (path : String) (fs : FileState) (env : Env)
    (s : String) (hs : env.ENVIRONMENT = some s) :
    (∀ c0 e, envLayer c0 env = Except.error e →
      (∃ ps, e = .invalidPort ps) ∨ (∃ ds, e = .invalidDebug ds)) ∧
    (∀ c, merged path fs env = Except.ok c → c.Environment = s) ∧
    (∀ c, merged path fs env = Except.ok c → ¬ s ∈ validEnvironments →
      LoadConfig path fs env = (zeroConfig, some (.validationFailed (Validate c))) ∧
      VErr.invalidEnvironment s ∈ Validate c) := by
  have henvc : ∀ c, merged path fs env = Except.ok c → c.Environment = s := by
    intro c hm
    obtain ⟨c1, -, henv⟩ := merged_ok_source path fs env c hm
    have h5 := (envLayer_ok_fields c1 c env henv).2.2.2.2.1
    rw [h5, hs]
    rfl
  refine ⟨fun c0 e he => envLayer_error_shape c0 env e he, henvc, ?_⟩
  intro c hm hbad
  have hce := henvc c hm
  have hmem : VErr.invalidEnvironment s ∈ Validate c := by
    have := mem_Validate_env_self c (by rw [hce]; exact hbad)
    rwa [hce] at this
  have hne : Validate c ≠ [] := by
    intro hnil
    rw [hnil] at hmem
    cases hmem
  exact ⟨LoadConfig_validation_fails path fs env c hm hne, hmem⟩

/-- Claim C8 witness: `ENVIRONMENT=bogus` with otherwise valid inputs
fails at validation, not at the override step. -/
theorem C8_environment_override_deferred_witness :
    LoadConfig "" FileState.notExist ⟨some "db", none, some "k", some "bogus", none⟩ =
      (zeroConfig, some (.validationFailed (Validate
        { DatabaseURL := "db", Port := 8080, Environment := "bogus", APIKey := "k",
          Debug := false }))) ∧
    VErr.invalidEnvironment "bogus" ∈ Validate
      { DatabaseURL := "db", Port := 8080, Environment := "bogus", APIKey := "k",
        Debug := false } :=
  (C8_environment_override_deferred "" FileState.notExist
      ⟨some "db", none, some "k", some "bogus", none⟩ "bogus" rfl).2.2
    { DatabaseURL := "db", Port := 8080, Environment := "bogus", APIKey := "k",
      Debug := false }
    rfl (by decide)

/-- Claim C10: an environment variable present with the empty string still
counts as an override: `DATABASE_URL=""` (resp. `API_KEY=""`) overwrites
the value the file layer supplied, so `LoadConfig` fails with
`ValidationFailedError` containing the corresponding missing-field error,
even though the file alone validates. -/
theorem C10_empty_env_value_overrides (path : String) (fs : FileState) (env : Env)
    (y : FileYaml) (hy : fileFields path fs = some y)
    (hfv : Validate (applyYaml y defaultConfig) = [])
    (hP : env.PORT = none) (hE : env.ENVIRONMENT = none) (hD : env.DEBUG = none) :
    (env.DATABASE_URL = some "" → env.API_KEY = none →
      LoadConfig path fs env = (zeroConfig, some (.validationFailed
        (Validate { applyYaml y defaultConfig with DatabaseURL := "" }))) ∧
      VErr.missingDatabaseURL ∈ Validate { applyYaml y defaultConfig with
        DatabaseURL := "" }) ∧
    (env.API_KEY = some "" → env.DATABASE_URL = none →
      LoadConfig path fs env = (zeroConfig, some (.validationFailed
        (Validate { applyYaml y defaultConfig with APIKey := "" }))) ∧
      VErr.missingAPIKey ∈ Validate { applyYaml y defaultConfig with APIKey := "" }) := by
  have hfl := fileFields_fileLayer path fs y hy
  constructor
  · intro hdb hak
    have he : envLayer (applyYaml y defaultConfig) env =
        .ok { applyYaml y defaultConfig with DatabaseURL := "" } := by
      unfold envLayer
      rw [hdb, hak, hP, hE, hD]
      rfl
    have hm : merged path fs env =
        .ok { applyYaml y defaultConfig with DatabaseURL := "" } := by
      unfold merged
      rw [hfl]
      exact he
    have hmem : VErr.missingDatabaseURL ∈
        Validate { applyYaml y defaultConfig with DatabaseURL := "" } :=
      (mem_Validate_db _).mpr rfl
    have hne : Validate { applyYaml y defaultConfig with DatabaseURL := "" } ≠ [] := by
      intro hnil
      rw [hnil] at hmem
      cases hmem
    exact ⟨LoadConfig_validation_fails path fs env _ hm hne, hmem⟩
  · intro hak hdb
    have he : envLayer (applyYaml y defaultConfig) env =
        .ok { applyYaml y defaultConfig with APIKey := "" } := by
      unfold envLayer
      rw [hdb, hak, hP, hE, hD]
      rfl
    have hm : merged path fs env =
        .ok { applyYaml y defaultConfig with APIKey := "" } := by
      unfold merged
      rw [hfl]
      exact he
    have hmem : VErr.missingAPIKey ∈
        Validate { applyYaml y defaultConfig with APIKey := "" } :=
      (mem_Validate_api _).mpr rfl
    have hne : Validate { applyYaml y defaultConfig with APIKey := "" } ≠ [] := by
      intro hnil
      rw [hnil] at hmem
      cases hmem
    exact ⟨LoadConfig_validation_fails path fs env _ hm hne, hmem⟩

/-- Claim C10 witness: a file that validates on its own, overridden by
`DATABASE_URL` set to the empty string. -/
theorem C10_empty_env_value_overrides_witness :
    LoadConfig "app.yaml"
        (.content (.ok ⟨some "postgres://f/db", none, none, some "k", none⟩))
        ⟨some "", none, none, none, none⟩ =
      (zeroConfig, some (.validationFailed (Validate
        { applyYaml ⟨some "postgres://f/db", none, none, some "k", none⟩ defaultConfig with
          DatabaseURL := "" }))) ∧
    VErr.missingDatabaseURL ∈ Validate
      { applyYaml ⟨some "postgres://f/db", none, none, some "k", none⟩ defaultConfig with
        DatabaseURL := "" } :=
  (C10_empty_env_value_overrides "app.yaml"
      (.content (.ok ⟨some "postgres://f/db", none, none, some "k", none⟩))
      ⟨some "", none, none, none, none⟩
      ⟨some "postgres://f/db", none, none, some "k", none⟩
      (by decide) (by decide) rfl rfl rfl).1
    rfl rfl

end MarketFlash
